import Mathlib

/-!
Shallow embedding of `larray_eurostat/sdmx.py` and proofs about it.

The module defines three Python functions:
  * `get_eurostat_sdmx_variable(var_id, key=None)` -- fetches the dataflow
    descriptor, the data structure definition `"DSD_" + var_id` and the data
    for `var_id` from the SDMX client, pivots the resulting table and converts
    it into a labeled array (sorted axes);
  * `describe_eurostat_data(arr, metadata)` -- replaces each axis's coded
    labels by `"code: description"` strings looked up in the codelist table;
  * `get_eurostat_sdmx(var_id, metadata=False, key=None)` -- the facade
    composing the two.

Python strings are `String`, dict / pandas-index lookups are association-list
lookups (`alookup`), exceptions are `Except Err`, a pandas `DataFrame` with a
hierarchical column index is `DataFrame`, and an `LArray` is `Arr`.
The SDMX client (`pandasdmx`), the tabular collaborator (`pandas`) and the
array collaborator (`larray`) are external libraries, not part of this
repository; the pieces of their behavior the claims depend on are modelled
from the spec and flagged as such in the doc comments below.
-/

namespace LarrayEurostat

/-- First-match association lookup on string keys: model of a Python dict /
pandas-index lookup returning `None` on a miss. -/
def alookup (k : String) : List (String × β) → Option β
  | [] => none
  | (a, b) :: rest => if a = k then some b else alookup k rest

/-- An `larray` axis: a name together with an ordered list of labels. -/
structure Axis where
  name : String
  labels : List String
deriving DecidableEq, Repr

/-- A labeled array: a list of axes (the `AxisCollection`) plus the flat data
buffer. The data is kept abstract in the cell type `α`. -/
structure Arr (α : Type) where
  axes : List Axis
  data : List α
deriving DecidableEq, Repr

/-- Model of `arr.axes.display_names`: the name of each axis, in axis order
(all axes produced here are named, so the display name is the name). -/
def display_names (axes : List Axis) : List String := axes.map Axis.name

/-- Model of `larray`'s `LArray.with_axes`: a derived array with the given
axes and the same data buffer. -/
def Arr.with_axes (arr : Arr α) (axes : List Axis) : Arr α :=
  { axes := axes, data := arr.data }

/-- Model of the `metadata.codelist` pandas DataFrame: only its `name` column
is ever read, a table from a dimension-or-codelist key to an ordered mapping
from code to description (the two index levels of the DataFrame). -/
structure Codelist where
  name : List (String × List (String × String))
deriving DecidableEq, Repr

/-- Source translation of `"{}: {}".format(l, md_i[l])`. -/
def fmtLabel (l d : String) : String := l ++ ": " ++ d

/-- Source translation of the inner helper `gettext(md, name, labels)` of
`describe_eurostat_data`: look up `"CL_" + name` in the `name` column, else
the bare `name`; on a hit keep (in order) the labels that have an entry and
render them as `"label: description"`; otherwise return the labels
unchanged. The Python list comprehension `[fmt(l, md_i[l]) for l in labels
if l in md_i]` is a filter followed by a map; `md_i[l]` is only evaluated on
labels that passed the `l in md_i` guard, so the `getD` default is inert. -/
def gettext (md : Codelist) (name : String) (labels : List String) : List String :=
  let cl := "CL_" ++ name
  match alookup cl md.name with
  | some md_i =>
      (labels.filter fun l => (alookup l md_i).isSome).map
        fun l => fmtLabel l ((alookup l md_i).getD "")
  | none =>
      match alookup name md.name with
      | some md_i =>
          (labels.filter fun l => (alookup l md_i).isSome).map
            fun l => fmtLabel l ((alookup l md_i).getD "")
      | none => labels

/-- Source translation of `describe_eurostat_data(arr, metadata)`: zip the
display names with the axis list, rebuild each axis with `gettext` labels and
return `arr.with_axes(en_axes)`. -/
def describe_eurostat_data (arr : Arr α) (metadata : Codelist) : Arr α :=
  let en_axes := ((display_names arr.axes).zip arr.axes).map
    fun p => Axis.mk p.1 (gettext metadata p.1 p.2.labels)
  arr.with_axes en_axes

/-- Failure conditions surfaced to the caller. `lookupError` models Python's
`KeyError` (a `LookupError` subclass) raised by a dict / locale lookup miss;
`clientError` stands for any error object raised inside a collaborator. -/
inductive Err where
  | lookupError (key : String)
  | clientError (msg : String)
deriving DecidableEq, Repr

/-- Python `d[k]` on a dict-like object: the value on a hit, a `KeyError`
(`LookupError` class) carrying the key on a miss. -/
def dictGet (d : List (String × β)) (k : String) : Except Err β :=
  match alookup k d with
  | some v => Except.ok v
  | none => Except.error (Err.lookupError k)

/-- One entry of `dataflow.msg.dataflow`: its `.name` attribute maps a locale
code (such as `"en"`) to the title in that locale. -/
structure DataflowItem where
  name : List (String × String)
deriving DecidableEq, Repr

/-- Model of `dataflow.msg`: the `dataflow` table from variable id to its
descriptor. -/
structure DataflowMsg where
  dataflow : List (String × DataflowItem)
deriving DecidableEq, Repr

/-- Model of the materialized data structure definition
(`estat.datastructure(...).write()`): exposes the codelist table. -/
structure DSD where
  codelist : Codelist
deriving DecidableEq, Repr

/-- Modelled from the spec: the tabular collaborator's two-dimensional table
with a hierarchical column index (one level per SDMX dimension, each level an
ordered, named label list), rows indexed by time period, and a flat value
buffer. This is the result of `data_resp.write(s for s in data.series)`. -/
structure DataFrame (α : Type) where
  colLevels : List Axis
  rowLevels : List Axis
  values : List α
deriving DecidableEq, Repr

/-- Modelled from the spec: the tabular collaborator's transpose `df.T`,
which swaps the row and column index. -/
def DataFrame.T (df : DataFrame α) : DataFrame α :=
  { colLevels := df.rowLevels, rowLevels := df.colLevels, values := df.values }

/-- Ordering of axes by name, used by the sorted conversion. -/
def axLE (a b : Axis) : Prop := a.name ≤ b.name

instance : DecidableRel axLE := fun a b => inferInstanceAs (Decidable (a.name ≤ b.name))

instance : IsTotal Axis axLE := ⟨fun a b => le_total a.name b.name⟩

instance : IsTrans Axis axLE := ⟨fun _ _ _ hab hbc => le_trans hab hbc⟩

/-- Sort a list of axes by axis name (stable insertion sort). -/
def sortByName (l : List Axis) : List Axis := List.insertionSort axLE l

/-- Modelled from the spec: the array collaborator's `df_aslarray`
conversion, absent from this repository. It turns the table's index levels
(row levels first, then column levels) into the axes of a labeled array and,
when `sort_columns` is set, sorts the resulting dimension axes by name for
deterministic ordering. -/
def df_aslarray (df : DataFrame α) (sort_columns : Bool) : Arr α :=
  let axes := df.rowLevels ++ df.colLevels
  { axes := if sort_columns then sortByName axes else axes, data := df.values }

/-- A key restricting dimension values: a mapping from dimension name to the
allowed values (the Python dict form; the empty list is the unfiltered
request `\x7b\x7d`). -/
abbrev Key := List (String × String)

/-- The SDMX client collaborator (`estat = Request('ESTAT')`), kept abstract:
`get_dataflow id` models `estat.get('dataflow', id)`, `datastructure id`
models `estat.datastructure(id).write()`, and `get_data id key` models
`estat.get(resource_type='data', resource_id=id, key=key)` followed by the
collaborator-side `data_resp.write(...)` conversion to a table. Each call
either returns its value or raises. -/
structure SdmxClient (α : Type) where
  get_dataflow : String → Except Err DataflowMsg
  datastructure : String → Except Err DSD
  get_data : String → Key → Except Err (DataFrame α)

/-- The default expression of the fetcher's `key=None` parameter. -/
def key_default : Option Key := none

/-- Source translation of `get_eurostat_sdmx_variable(var_id, key=None)`:
replace a `None` key by the empty dict, fetch the dataflow descriptor, take
the `'en'` name of its `var_id` entry as title, materialize the data
structure definition `"DSD_" + var_id`, fetch the data, and convert the
transposed table into a labeled array with sorted axes. Exceptions propagate
through the `Except` monad exactly as Python exceptions do. -/
def get_eurostat_sdmx_variable (estat : SdmxClient α) (var_id : String)
    (key : Option Key) : Except Err (String × Codelist × Arr α) := do
  let k := match key with
    | none => ([] : Key)
    | some k0 => k0
  let dataflow ← estat.get_dataflow var_id
  let item ← dictGet dataflow.dataflow var_id
  let title ← dictGet item.name "en"
  let dsd ← estat.datastructure ("DSD_" ++ var_id)
  let df ← estat.get_data var_id k
  let arr := df_aslarray df.T true
  return (title, dsd.codelist, arr)

/-- Source translation of `get_eurostat_sdmx(var_id, metadata=False,
key=None)`: when `key` is `None` call the fetcher with its key argument
omitted (hence with the fetcher's own default), otherwise pass `key`
through; then either label the data with its codelist or return it raw. -/
def get_eurostat_sdmx (estat : SdmxClient α) (var_id : String)
    (metadata : Bool) (key : Option Key) : Except Err (Arr α) :=
  match (match key with
         | none => get_eurostat_sdmx_variable estat var_id key_default
         | some k => get_eurostat_sdmx_variable estat var_id (some k)) with
  | Except.error e => Except.error e
  | Except.ok (_, df_metadata, data) =>
      if metadata then Except.ok (describe_eurostat_data data df_metadata)
      else Except.ok data

/-- Branch-free variant of the facade, used to state that the `None` check
in the source is behaviorally redundant: it passes `key` to the fetcher
unconditionally. -/
def get_eurostat_sdmx_direct (estat : SdmxClient α) (var_id : String)
    (metadata : Bool) (key : Option Key) : Except Err (Arr α) :=
  match get_eurostat_sdmx_variable estat var_id key with
  | Except.error e => Except.error e
  | Except.ok (_, df_metadata, data) =>
      if metadata then Except.ok (describe_eurostat_data data df_metadata)
      else Except.ok data

/-! ### Spec-side formulations and frame embedding -/

/-- Modelled from the spec: substitution through one codelist entry, written
as a single `filterMap` -- the output labels are `"code: description"` for
every code that has a description, in code order, codes absent from the
entry silently dropped. -/
def substLabels (entry : List (String × String)) (labels : List String) : List String :=
  labels.filterMap fun l => (alookup l entry).map fun d => fmtLabel l d

/-- Modelled from the spec: the per-axis three-way lookup -- the
`"CL_"`-keyed entry first, then the bare axis name, else pass the labels
through unchanged. -/
def specAxisLabels (md : Codelist) (name : String) (labels : List String) : List String :=
  match alookup ("CL_" ++ name) md.name with
  | some e => substLabels e labels
  | none =>
      match alookup name md.name with
      | some e => substLabels e labels
      | none => labels

/-- The codelist entry `gettext` ends up using for an axis name, if any. -/
def matchedEntry (md : Codelist) (name : String) : Option (List (String × String)) :=
  match alookup ("CL_" ++ name) md.name with
  | some e => some e
  | none => alookup name md.name

/-- An axis is fully covered when some codelist entry matches its name and
gives a description to every one of its labels. -/
def coversAxis (md : Codelist) (ax : Axis) : Bool :=
  match matchedEntry md ax.name with
  | some e => ax.labels.all fun l => (alookup l e).isSome
  | none => false

/-- The key actually sent to the collaborator: the empty dict when the
`key` argument is `None`. -/
def effectiveKey (key : Option Key) : Key :=
  match key with
  | none => []
  | some k0 => k0

/-- A store holding the two objects passed to `describe_eurostat_data`, used
to express frame conditions: an embedding that threads the store makes "no
in-place mutation" a provable statement. -/
structure Store (α : Type) where
  arrObj : Arr α
  mdObj : Codelist
deriving DecidableEq, Repr

/-- Store-threading form of `describe_eurostat_data`: every step of the
source body (reading `metadata`, reading `arr.axes`, building the new axes,
calling `with_axes`) only reads the store, and the function returns the
store alongside its result. -/
def describe_eurostat_data_st (s : Store α) : Store α × Arr α :=
  let metadata := s.mdObj
  let arr := s.arrObj
  let en_axes := ((display_names arr.axes).zip arr.axes).map
    fun p => Axis.mk p.1 (gettext metadata p.1 p.2.labels)
  (s, arr.with_axes en_axes)

/-! ### Concrete stub collaborators and inputs for the witnesses -/

/-- A dataflow descriptor entry with an English name, as a stub would return
it. -/
def itemW : DataflowItem :=
  ⟨[("en", "People at risk of poverty or social exclusion by age and sex")]⟩

/-- A stub dataflow message declaring the variable `ilc_peps01`. -/
def dfmW : DataflowMsg := ⟨[("ilc_peps01", itemW)]⟩

/-- A stub codelist table with one entry keyed by the bare dimension name. -/
def clW : Codelist :=
  ⟨[("SEX", [("F", "Females"), ("M", "Males"), ("T", "Total")])]⟩

/-- A stub data table: two dimension column levels and a time row level. -/
def dfW : DataFrame Nat :=
  ⟨[Axis.mk "UNIT" ["PC_POP"], Axis.mk "GEO" ["BE", "EU28"]],
   [Axis.mk "TIME_PERIOD" ["2015"]],
   [1, 2]⟩

/-- A stub SDMX client whose every request succeeds. -/
def estatW : SdmxClient Nat :=
  { get_dataflow := fun _ => Except.ok dfmW,
    datastructure := fun _ => Except.ok ⟨clW⟩,
    get_data := fun _ _ => Except.ok dfW }

/-- A stub SDMX client whose dataflow message is empty (the variable id does
not exist upstream) and whose later requests raise. -/
def estatFailW : SdmxClient Nat :=
  { get_dataflow := fun _ => Except.ok ⟨[]⟩,
    datastructure := fun _ => Except.error (Err.clientError "boom"),
    get_data := fun _ _ => Except.error (Err.clientError "boom") }

/-- A one-axis array with one code lacking a description in `mdW4`. -/
def arrW4 : Arr Nat := ⟨[Axis.mk "SEX" ["F", "X"]], [10, 20]⟩

/-- A codelist giving a description to `F` only. -/
def mdW4 : Codelist := ⟨[("SEX", [("F", "Females")])]⟩

/-- The single axis of `arrW4`. -/
def axW4 : Axis := Axis.mk "SEX" ["F", "X"]

/-- A one-axis array fully covered by `mdW4`: its only code is `F`. -/
def arrC9 : Arr Nat := ⟨[Axis.mk "SEX" ["F"]], [0]⟩

/-- A one-axis array whose axis name matches no codelist entry of `mdW4`. -/
def arrW9u : Arr Nat := ⟨[Axis.mk "COUNTRY" ["BE"]], [7]⟩

/-! ### Helper lemmas -/

theorem filter_map_eq_substLabels (e : List (String × String)) :
    ∀ labels : List String,
      ((labels.filter fun l => (alookup l e).isSome).map
        fun l => fmtLabel l ((alookup l e).getD "")) = substLabels e labels
  | [] => rfl
  | l :: rest => by
    cases h : alookup l e with
    | none =>
        simp [substLabels, List.filter_cons, List.filterMap_cons, h,
          filter_map_eq_substLabels e rest]
    | some d =>
        simp [substLabels, List.filter_cons, List.filterMap_cons, h,
          filter_map_eq_substLabels e rest]

theorem gettext_eq_spec (md : Codelist) (name : String) (labels : List String) :
    gettext md name labels = specAxisLabels md name labels := by
  unfold gettext specAxisLabels
  cases h1 : alookup ("CL_" ++ name) md.name with
  | some e => simp [h1, filter_map_eq_substLabels]
  | none =>
      cases h2 : alookup name md.name with
      | some e => simp [h1, h2, filter_map_eq_substLabels]
      | none => simp [h1, h2]

theorem specAxisLabels_matchedEntry (md : Codelist) (name : String) (labels : List String) :
    specAxisLabels md name labels
      = match matchedEntry md name with
        | some e => substLabels e labels
        | none => labels := by
  unfold specAxisLabels matchedEntry
  cases alookup ("CL_" ++ name) md.name with
  | some e => rfl
  | none =>
      cases alookup name md.name with
      | some e => rfl
      | none => rfl

theorem gettext_matched (md : Codelist) (name : String) (labels : List String)
    (e : List (String × String)) (h : matchedEntry md name = some e) :
    gettext md name labels = substLabels e labels := by
  rw [gettext_eq_spec, specAxisLabels_matchedEntry, h]

theorem gettext_unmatched (md : Codelist) (name : String) (labels : List String)
    (h : matchedEntry md name = none) :
    gettext md name labels = labels := by
  rw [gettext_eq_spec, specAxisLabels_matchedEntry, h]

theorem zip_display_map (f : String × Axis → Axis) :
    ∀ axes : List Axis,
      ((display_names axes).zip axes).map f = axes.map fun ax => f (ax.name, ax)
  | [] => rfl
  | a :: rest => by
    simp only [display_names, List.map_cons, List.zip_cons_cons]
    rw [← display_names]
    rw [zip_display_map f rest]

theorem describe_axes (arr : Arr α) (md : Codelist) :
    (describe_eurostat_data arr md).axes
      = arr.axes.map fun ax => Axis.mk ax.name (gettext md ax.name ax.labels) := by
  unfold describe_eurostat_data Arr.with_axes
  simp only
  rw [zip_display_map]

theorem describe_data (arr : Arr α) (md : Codelist) :
    (describe_eurostat_data arr md).data = arr.data := rfl

theorem substLabels_length_le (e : List (String × String)) :
    ∀ labels : List String, (substLabels e labels).length ≤ labels.length
  | [] => le_refl 0
  | l :: rest => by
    cases h : alookup l e with
    | none =>
        simp only [substLabels, List.filterMap_cons, h, Option.map_none']
        exact le_trans (substLabels_length_le e rest) (Nat.le_succ _)
    | some d =>
        simp only [substLabels, List.filterMap_cons, h, Option.map_some', List.length_cons]
        exact Nat.succ_le_succ (substLabels_length_le e rest)

theorem substLabels_length_covered (e : List (String × String)) :
    ∀ labels : List String, (∀ l ∈ labels, (alookup l e).isSome = true) →
      (substLabels e labels).length = labels.length
  | [], _ => rfl
  | l :: rest, h => by
    have hl : (alookup l e).isSome = true := h l (List.mem_cons_self l rest)
    cases hx : alookup l e with
    | none => rw [hx] at hl; simp at hl
    | some d =>
        simp only [substLabels, List.filterMap_cons, hx, Option.map_some', List.length_cons]
        have := substLabels_length_covered e rest fun x hx0 => h x (List.mem_cons_of_mem l hx0)
        simp only [substLabels] at this
        omega

theorem substLabels_length_dropped (e : List (String × String)) :
    ∀ labels : List String, ∀ l ∈ labels, alookup l e = none →
      (substLabels e labels).length < labels.length := by
  intro labels
  induction labels with
  | nil => intro l hl; exact absurd hl (List.not_mem_nil l)
  | cons a rest ih =>
    intro l hl hnone
    rcases List.mem_cons.mp hl with heq | hmem
    · subst heq
      simp only [substLabels, List.filterMap_cons, hnone, Option.map_none', List.length_cons]
      have := substLabels_length_le e rest
      simp only [substLabels] at this ⊢
      omega
    · have hrest := ih l hmem hnone
      cases hx : alookup a e with
      | none =>
          simp only [substLabels, List.filterMap_cons, hx, Option.map_none', List.length_cons]
          simp only [substLabels] at hrest
          omega
      | some d =>
          simp only [substLabels, List.filterMap_cons, hx, Option.map_some', List.length_cons]
          simp only [substLabels] at hrest
          omega

theorem sortByName_perm (l : List Axis) : List.Perm (sortByName l) l :=
  List.perm_insertionSort axLE l

theorem sortByName_sorted (l : List Axis) : List.Sorted axLE (sortByName l) :=
  List.sorted_insertionSort axLE l

theorem df_aslarray_T_axes (df : DataFrame α) :
    (df_aslarray df.T true).axes = sortByName (df.colLevels ++ df.rowLevels) := rfl

theorem fetch_ok_eq (estat : SdmxClient α) (var_id : String) (key : Option Key)
    (dfm : DataflowMsg) (item : DataflowItem) (title : String) (dsd : DSD)
    (df : DataFrame α)
    (h1 : estat.get_dataflow var_id = Except.ok dfm)
    (h2 : alookup var_id dfm.dataflow = some item)
    (h3 : alookup "en" item.name = some title)
    (h4 : estat.datastructure ("DSD_" ++ var_id) = Except.ok dsd)
    (h5 : estat.get_data var_id (effectiveKey key) = Except.ok df) :
    get_eurostat_sdmx_variable estat var_id key
      = Except.ok (title, dsd.codelist, df_aslarray df.T true) := by
  unfold get_eurostat_sdmx_variable
  unfold effectiveKey at h5
  simp [h1, h2, h3, h4, h5, dictGet, Except.bind, Bind.bind, Pure.pure, Except.pure]

theorem map_id_of_mem (l : List Axis) (f : Axis → Axis) (h : ∀ a ∈ l, f a = a) :
    l.map f = l := by
  induction l with
  | nil => rfl
  | cons a t ih =>
      simp only [List.map_cons, h a (List.mem_cons_self a t),
        ih fun x hx => h x (List.mem_cons_of_mem a hx)]

theorem arr_parts_eq {x y : Arr α} (h1 : x.axes = y.axes) (h2 : x.data = y.data) :
    x = y := by
  cases x
  cases y
  cases h1
  cases h2
  rfl

theorem describe_unmatched_id (arr : Arr α) (md : Codelist)
    (h : ∀ ax ∈ arr.axes, matchedEntry md ax.name = none) :
    describe_eurostat_data arr md = arr := by
  refine arr_parts_eq ?_ rfl
  rw [describe_axes]
  refine map_id_of_mem arr.axes _ fun ax hax => ?_
  rw [gettext_unmatched md ax.name ax.labels (h ax hax)]

/-! ### Claim theorems -/

/-- C1: `describe_eurostat_data` processes each axis by the three-way
lookup: with a `"CL_" + axis_name` entry the labels become
`"code: description"` for every code with a description, in the axis's
order, codes absent from the codelist silently dropped; else the bare axis
name entry is used the same way; else the labels pass through unchanged. -/
theorem claim1_three_way_axis_lookup (arr : Arr α) (md : Codelist) :
    (describe_eurostat_data arr md).axes
      = arr.axes.map fun ax => Axis.mk ax.name (specAxisLabels md ax.name ax.labels) := by
  rw [describe_axes]
  simp only [gettext_eq_spec]

/-- C2: the facade with `metadata=False` returns exactly the array component
of the fetcher's triple (title and codelist discarded), and with
`metadata=True` exactly `describe_eurostat_data` applied to the fetched
array and its codelist table; errors included, it is a pure composition. -/
theorem claim2_facade_composition (estat : SdmxClient α) (var_id : String) (key : Option Key) :
    get_eurostat_sdmx estat var_id false key
        = Except.map (fun t => t.2.2) (get_eurostat_sdmx_variable estat var_id key)
      ∧ get_eurostat_sdmx estat var_id true key
        = Except.map (fun t => describe_eurostat_data t.2.2 t.2.1)
            (get_eurostat_sdmx_variable estat var_id key) := by
  have hbranch : (match key with
      | none => get_eurostat_sdmx_variable estat var_id key_default
      | some k => get_eurostat_sdmx_variable estat var_id (some k))
      = get_eurostat_sdmx_variable estat var_id key := by
    cases key with
    | none => rfl
    | some k => rfl
  constructor <;>
  · unfold get_eurostat_sdmx
    rw [hbranch]
    cases h : get_eurostat_sdmx_variable estat var_id key with
    | error e => simp [Except.map]
    | ok t =>
        rcases t with ⟨a, b, c⟩
        simp [Except.map]

/-- C3: on any variable id and key the stub collaborator accepts, the
fetcher's returned array has as axes exactly the dimension levels of the
table the collaborator returned (column levels and time row levels), as a
sorted-by-name permutation: deterministic axis ordering. -/
theorem claim3_axes_sorted (estat : SdmxClient α) (var_id : String) (key : Option Key)
    (dfm : DataflowMsg) (item : DataflowItem) (title : String) (dsd : DSD)
    (df : DataFrame α)
    (h1 : estat.get_dataflow var_id = Except.ok dfm)
    (h2 : alookup var_id dfm.dataflow = some item)
    (h3 : alookup "en" item.name = some title)
    (h4 : estat.datastructure ("DSD_" ++ var_id) = Except.ok dsd)
    (h5 : estat.get_data var_id (effectiveKey key) = Except.ok df) :
    get_eurostat_sdmx_variable estat var_id key
        = Except.ok (title, dsd.codelist, df_aslarray df.T true)
      ∧ List.Perm (df_aslarray df.T true).axes (df.colLevels ++ df.rowLevels)
      ∧ List.Sorted axLE (df_aslarray df.T true).axes := by
  refine ⟨fetch_ok_eq estat var_id key dfm item title dsd df h1 h2 h3 h4 h5, ?_, ?_⟩
  · rw [df_aslarray_T_axes]
    exact sortByName_perm _
  · rw [df_aslarray_T_axes]
    exact sortByName_sorted _

/-- C4: `describe_eurostat_data` never touches the data buffer and keeps the
number of axes; on an axis fully covered by the matched codelist entry the
label count is preserved, in general it can only shrink, and as soon as one
code of the axis has no description the output label list is strictly
shorter than the data extent along that axis (the data is not
re-filtered). -/
theorem claim4_cardinality_and_data (arr : Arr α) (md : Codelist) (ax : Axis)
    (hax : ax ∈ arr.axes) :
    (describe_eurostat_data arr md).data = arr.data
      ∧ (describe_eurostat_data arr md).axes.length = arr.axes.length
      ∧ Axis.mk ax.name (gettext md ax.name ax.labels) ∈ (describe_eurostat_data arr md).axes
      ∧ (coversAxis md ax = true →
          (gettext md ax.name ax.labels).length = ax.labels.length)
      ∧ (gettext md ax.name ax.labels).length ≤ ax.labels.length
      ∧ (∀ e, matchedEntry md ax.name = some e → ∀ l ∈ ax.labels,
          alookup l e = none →
          (gettext md ax.name ax.labels).length < ax.labels.length) := by
  refine ⟨rfl, ?_, ?_, ?_, ?_, ?_⟩
  · rw [describe_axes, List.length_map]
  · rw [describe_axes]
    exact List.mem_map_of_mem _ hax
  · intro h
    unfold coversAxis at h
    cases he : matchedEntry md ax.name with
    | none => rw [he] at h; simp at h
    | some e =>
        rw [he] at h
        simp only [List.all_eq_true] at h
        rw [gettext_matched md ax.name ax.labels e he]
        exact substLabels_length_covered e ax.labels fun l hl => h l hl
  · cases he : matchedEntry md ax.name with
    | none => rw [gettext_unmatched md ax.name ax.labels he]
    | some e =>
        rw [gettext_matched md ax.name ax.labels e he]
        exact substLabels_length_le e ax.labels
  · intro e he l hl hnone
    rw [gettext_matched md ax.name ax.labels e he]
    exact substLabels_length_dropped e ax.labels l hl hnone

/-- C4 witness: on the concrete array `arrW4` (codes `F` and `X`, data of
length two) and the codelist `mdW4` describing only `F`, the theorem applies
and in particular the output label list is strictly shorter than the data
extent. -/
theorem claim4_witness :
    axW4 ∈ arrW4.axes
      ∧ ((describe_eurostat_data arrW4 mdW4).data = arrW4.data
        ∧ (describe_eurostat_data arrW4 mdW4).axes.length = arrW4.axes.length
        ∧ Axis.mk axW4.name (gettext mdW4 axW4.name axW4.labels)
            ∈ (describe_eurostat_data arrW4 mdW4).axes
        ∧ (coversAxis mdW4 axW4 = true →
            (gettext mdW4 axW4.name axW4.labels).length = axW4.labels.length)
        ∧ (gettext mdW4 axW4.name axW4.labels).length ≤ axW4.labels.length
        ∧ (∀ e, matchedEntry mdW4 axW4.name = some e → ∀ l ∈ axW4.labels,
            alookup l e = none →
            (gettext mdW4 axW4.name axW4.labels).length < axW4.labels.length)) :=
  ⟨by decide, claim4_cardinality_and_data arrW4 mdW4 axW4 (by decide)⟩

/-- C5: on accepted inputs the fetcher returns the triple
`(title, codelist, array)` where the title is the `'en'`-locale name taken
from the dataflow descriptor entry for `var_id` and the codelist is the one
of the data structure definition requested under `"DSD_" + var_id`. -/
theorem claim5_fetch_returns_triple (estat : SdmxClient α) (var_id : String)
    (key : Option Key) (dfm : DataflowMsg) (item : DataflowItem) (title : String)
    (dsd : DSD) (df : DataFrame α)
    (h1 : estat.get_dataflow var_id = Except.ok dfm)
    (h2 : alookup var_id dfm.dataflow = some item)
    (h3 : alookup "en" item.name = some title)
    (h4 : estat.datastructure ("DSD_" ++ var_id) = Except.ok dsd)
    (h5 : estat.get_data var_id (effectiveKey key) = Except.ok df) :
    get_eurostat_sdmx_variable estat var_id key
      = Except.ok (title, dsd.codelist, df_aslarray df.T true) :=
  fetch_ok_eq estat var_id key dfm item title dsd df h1 h2 h3 h4 h5

/-- C5 witness: the all-ok stub client yields the concrete triple, whose
title is the English dataflow name and whose codelist is `clW`. -/
theorem claim5_witness :
    estatW.get_dataflow "ilc_peps01" = Except.ok dfmW
      ∧ alookup "ilc_peps01" dfmW.dataflow = some itemW
      ∧ alookup "en" itemW.name
          = some "People at risk of poverty or social exclusion by age and sex"
      ∧ estatW.datastructure ("DSD_" ++ "ilc_peps01") = Except.ok ⟨clW⟩
      ∧ estatW.get_data "ilc_peps01" (effectiveKey none) = Except.ok dfW
      ∧ get_eurostat_sdmx_variable estatW "ilc_peps01" none
          = Except.ok ("People at risk of poverty or social exclusion by age and sex",
              clW, df_aslarray dfW.T true) :=
  ⟨rfl, by decide, by decide, rfl, rfl,
    claim5_fetch_returns_triple estatW "ilc_peps01" none dfmW itemW
      "People at risk of poverty or social exclusion by age and sex" ⟨clW⟩ dfW
      rfl (by decide) (by decide) rfl rfl⟩

/-- C3 witness: on the stub client the returned array's axes are a
sorted-by-name permutation of the dimension levels `UNIT`, `GEO`,
`TIME_PERIOD` declared by the stub. -/
theorem claim3_witness :
    estatW.get_data "ilc_peps01" (effectiveKey none) = Except.ok dfW
      ∧ (get_eurostat_sdmx_variable estatW "ilc_peps01" none
          = Except.ok ("People at risk of poverty or social exclusion by age and sex",
              clW, df_aslarray dfW.T true)
        ∧ List.Perm (df_aslarray dfW.T true).axes (dfW.colLevels ++ dfW.rowLevels)
        ∧ List.Sorted axLE (df_aslarray dfW.T true).axes) :=
  ⟨rfl,
    claim3_axes_sorted estatW "ilc_peps01" none dfmW itemW
      "People at risk of poverty or social exclusion by age and sex" ⟨clW⟩ dfW
      rfl (by decide) (by decide) rfl rfl⟩

/-- C7: every failure propagates unchanged -- a raising dataflow request, a
missing variable id (a `KeyError`, `LookupError` class, carrying the id), a
missing `'en'` locale name (idem, carrying `"en"`), a raising data structure
request, and a raising data request each abort the fetcher with exactly that
error and no partial result. -/
theorem claim7_error_propagation (estat : SdmxClient α) (var_id : String) (key : Option Key) :
    (∀ e, estat.get_dataflow var_id = Except.error e →
        get_eurostat_sdmx_variable estat var_id key = Except.error e)
      ∧ (∀ dfm, estat.get_dataflow var_id = Except.ok dfm →
          alookup var_id dfm.dataflow = none →
          get_eurostat_sdmx_variable estat var_id key
            = Except.error (Err.lookupError var_id))
      ∧ (∀ dfm item, estat.get_dataflow var_id = Except.ok dfm →
          alookup var_id dfm.dataflow = some item →
          alookup "en" item.name = none →
          get_eurostat_sdmx_variable estat var_id key
            = Except.error (Err.lookupError "en"))
      ∧ (∀ dfm item title e, estat.get_dataflow var_id = Except.ok dfm →
          alookup var_id dfm.dataflow = some item →
          alookup "en" item.name = some title →
          estat.datastructure ("DSD_" ++ var_id) = Except.error e →
          get_eurostat_sdmx_variable estat var_id key = Except.error e)
      ∧ (∀ dfm item title dsd e, estat.get_dataflow var_id = Except.ok dfm →
          alookup var_id dfm.dataflow = some item →
          alookup "en" item.name = some title →
          estat.datastructure ("DSD_" ++ var_id) = Except.ok dsd →
          estat.get_data var_id (effectiveKey key) = Except.error e →
          get_eurostat_sdmx_variable estat var_id key = Except.error e) := by
  refine ⟨?_, ?_, ?_, ?_, ?_⟩
  · intro e h
    unfold get_eurostat_sdmx_variable
    simp [h, Except.bind, Bind.bind]
  · intro dfm hok hmiss
    unfold get_eurostat_sdmx_variable
    simp [hok, hmiss, dictGet, Except.bind, Bind.bind]
  · intro dfm item hok hitem hmiss
    unfold get_eurostat_sdmx_variable
    simp [hok, hitem, hmiss, dictGet, Except.bind, Bind.bind]
  · intro dfm item title e hok hitem htitle herr
    unfold get_eurostat_sdmx_variable
    simp [hok, hitem, htitle, herr, dictGet, Except.bind, Bind.bind]
  · intro dfm item title dsd e hok hitem htitle hdsd herr
    unfold get_eurostat_sdmx_variable
    unfold effectiveKey at herr
    simp [hok, hitem, htitle, hdsd, herr, dictGet, Except.bind, Bind.bind]

/-- C7 witness: against the failing stub, requesting an unknown variable id
surfaces exactly the `KeyError`-style lookup failure carrying the id. -/
theorem claim7_witness :
    estatFailW.get_dataflow "nope" = Except.ok ⟨[]⟩
      ∧ alookup "nope" (DataflowMsg.mk []).dataflow = none
      ∧ get_eurostat_sdmx_variable estatFailW "nope" none
          = Except.error (Err.lookupError "nope") :=
  ⟨rfl, rfl, (claim7_error_propagation estatFailW "nope" none).2.1 ⟨[]⟩ rfl rfl⟩

/-- C8: `describe_eurostat_data` is a functional transformation: in the
store-threading embedding of its body the store comes back unchanged (the
input array and the metadata are the same after the call as before it), the
result is the same newly produced array the direct embedding returns, and
that new array shares the untouched data buffer of the input. -/
theorem claim8_no_mutation (s : Store α) :
    (describe_eurostat_data_st s).1 = s
      ∧ (describe_eurostat_data_st s).2 = describe_eurostat_data s.arrObj s.mdObj
      ∧ (describe_eurostat_data s.arrObj s.mdObj).data = s.arrObj.data :=
  ⟨rfl, rfl, rfl⟩

/-- C9 counterexample: idempotence fails on an array fully covered by the
codelist. On `arrC9` (axis `SEX`, single code `F`) and `mdW4` (describing
`F`), every axis is fully covered, yet a second application empties the
label list (`"F: Females"` is not a code of the entry), so applying the
labeler twice differs from applying it once. -/
theorem claim9_counterexample :
    (arrC9.axes.all fun ax => coversAxis mdW4 ax) = true
      ∧ describe_eurostat_data (describe_eurostat_data arrC9 mdW4) mdW4
          ≠ describe_eurostat_data arrC9 mdW4 := by
  constructor
  · decide
  · decide

/-- C9 (amended): the labeler never alters the data buffer, the axis names
or the number of axes, leaves every axis with no matching codelist entry
untouched, and is idempotent with respect to such unmatched axes: on an
array none of whose axes matches the codelist, a second application yields
the same array as the first (both equal the input). -/
theorem claim9_amended_idempotence (arr : Arr α) (md : Codelist) :
    (describe_eurostat_data arr md).data = arr.data
      ∧ (describe_eurostat_data arr md).axes.map Axis.name = arr.axes.map Axis.name
      ∧ (∀ ax ∈ arr.axes, matchedEntry md ax.name = none →
          Axis.mk ax.name (gettext md ax.name ax.labels) = ax)
      ∧ ((∀ ax ∈ arr.axes, matchedEntry md ax.name = none) →
          describe_eurostat_data (describe_eurostat_data arr md) md
            = describe_eurostat_data arr md) := by
  refine ⟨rfl, ?_, ?_, ?_⟩
  · rw [describe_axes, List.map_map]
    rfl
  · intro ax _ hnone
    rw [gettext_unmatched md ax.name ax.labels hnone]
  · intro h
    rw [describe_unmatched_id arr md h]
    exact describe_unmatched_id arr md h

/-- C9 witness: on the array `arrW9u`, whose only axis `COUNTRY` matches no
entry of `mdW4`, the labeler is idempotent. -/
theorem claim9_witness :
    (∀ ax ∈ arrW9u.axes, matchedEntry mdW4 ax.name = none)
      ∧ describe_eurostat_data (describe_eurostat_data arrW9u mdW4) mdW4
          = describe_eurostat_data arrW9u mdW4 :=
  ⟨by decide, (claim9_amended_idempotence arrW9u mdW4).2.2.2 (by decide)⟩

/-- C6: calling the fetcher with `key=None` behaves exactly as if the empty
key mapping had been supplied: the data request (and hence the whole
result) is the unfiltered one. -/
theorem claim6_none_key_is_unfiltered (estat : SdmxClient α) (var_id : String) :
    get_eurostat_sdmx_variable estat var_id none
      = get_eurostat_sdmx_variable estat var_id (some []) := rfl

/-- C10: the fetcher's key parameter defaults to `None`, so calling it with
the key omitted (the default expression) equals calling it with `None`
explicitly, and the facade's `None` check is behaviorally redundant: it
equals the branch-free facade that always passes `key` through. -/
theorem claim10_redundant_none_branch (estat : SdmxClient α) (var_id : String)
    (metadata : Bool) (key : Option Key) :
    get_eurostat_sdmx_variable estat var_id key_default
        = get_eurostat_sdmx_variable estat var_id none
      ∧ get_eurostat_sdmx estat var_id metadata key
        = get_eurostat_sdmx_direct estat var_id metadata key := by
  refine ⟨rfl, ?_⟩
  cases key with
  | none => rfl
  | some k => rfl

end LarrayEurostat
